import Mathlib

/-!
Verification development for the stock-screening repository.

The embedding follows the Python sources:
  scripts/wave_analysis.py          (weekly wave screener, namespace wave_analysis)
  scripts/potential_stock_finder.py (daily breakout screener + retry helper,
                                     namespace potential_stock_finder)
  scripts/tqqq_analysis.py          (trend screener, namespace tqqq_analysis)

Modelling conventions:
* Prices/volumes are exact rationals; the decimal literals of the source
  (0.382, 1.10, 2.0, ...) are modelled by the exact rationals they denote.
* pandas/NumPy float semantics are modelled by the type `Fp` below: `nan`
  results from 0/0 and from rolling windows with insufficient data, `pinf`
  and `ninf` from division of a nonzero value by zero.  Every comparison
  involving `nan` is false, exactly as for IEEE floats, which is what the
  screeners rely on (`NaN < x` and `NaN >= x` are both false in pandas).
* Fallible code paths (functions that catch exceptions and return a sentinel)
  are modelled by `Option` or by the designated failure value of the source.
-/

set_option maxRecDepth 1000000

/-- Model of a pandas float cell: either a finite rational, an infinity
(produced by dividing a nonzero value by zero) or `nan`. -/
inductive Fp where
  | nan : Fp
  | pinf : Fp
  | ninf : Fp
  | fin : ℚ → Fp
deriving DecidableEq

namespace Fp

/-- Strict `<` with IEEE semantics: any comparison with `nan` is false. -/
def blt : Fp → Fp → Bool
  | nan, _ => false
  | _, nan => false
  | fin a, fin b => decide (a < b)
  | fin _, pinf => true
  | fin _, ninf => false
  | pinf, _ => false
  | ninf, ninf => false
  | ninf, _ => true

/-- `≤` with IEEE semantics: any comparison with `nan` is false. -/
def ble : Fp → Fp → Bool
  | nan, _ => false
  | _, nan => false
  | fin a, fin b => decide (a ≤ b)
  | fin _, pinf => true
  | fin _, ninf => false
  | pinf, pinf => true
  | pinf, _ => false
  | ninf, _ => true

def add : Fp → Fp → Fp
  | nan, _ => nan
  | _, nan => nan
  | fin a, fin b => fin (a + b)
  | fin _, pinf => pinf
  | fin _, ninf => ninf
  | pinf, fin _ => pinf
  | ninf, fin _ => ninf
  | pinf, pinf => pinf
  | ninf, ninf => ninf
  | pinf, ninf => nan
  | ninf, pinf => nan

def sub : Fp → Fp → Fp
  | nan, _ => nan
  | _, nan => nan
  | fin a, fin b => fin (a - b)
  | fin _, pinf => ninf
  | fin _, ninf => pinf
  | pinf, fin _ => pinf
  | ninf, fin _ => ninf
  | pinf, pinf => nan
  | ninf, ninf => nan
  | pinf, ninf => pinf
  | ninf, pinf => ninf

def mul : Fp → Fp → Fp
  | nan, _ => nan
  | _, nan => nan
  | fin a, fin b => fin (a * b)
  | fin a, pinf => if 0 < a then pinf else if a < 0 then ninf else nan
  | pinf, fin a => if 0 < a then pinf else if a < 0 then ninf else nan
  | fin a, ninf => if 0 < a then ninf else if a < 0 then pinf else nan
  | ninf, fin a => if 0 < a then ninf else if a < 0 then pinf else nan
  | pinf, pinf => pinf
  | ninf, ninf => pinf
  | pinf, ninf => ninf
  | ninf, pinf => ninf

def div : Fp → Fp → Fp
  | nan, _ => nan
  | _, nan => nan
  | fin a, fin b =>
      if b = 0 then (if 0 < a then pinf else if a < 0 then ninf else nan)
      else fin (a / b)
  | fin _, pinf => fin 0
  | fin _, ninf => fin 0
  | pinf, fin b => if 0 ≤ b then pinf else ninf
  | ninf, fin b => if 0 ≤ b then ninf else pinf
  | pinf, pinf => nan
  | pinf, ninf => nan
  | ninf, pinf => nan
  | ninf, ninf => nan

end Fp

/-- Division of two rationals with pandas float semantics for a zero
denominator. -/
def fdivQ (a b : ℚ) : Fp := Fp.div (Fp.fin a) (Fp.fin b)

/-- Arithmetic mean of a list of rationals (callers guarantee nonemptiness). -/
def listMean (xs : List ℚ) : ℚ := xs.sum / (xs.length : ℚ)

/-- The last `n` entries of a list (`xs.tail(n)` in pandas). -/
def lastN (n : ℕ) (xs : List α) : List α := xs.drop (xs.length - n)

/-- `xs.iloc[-k]` for `1 ≤ k ≤ xs.length`; defaults to `0` out of range. -/
def endD (xs : List ℚ) (k : ℕ) : ℚ := xs.getD (xs.length - k) 0

/-- The value of `xs.rolling(w).mean()` at the final index: `nan` when fewer
than `w` entries are available, otherwise the mean of the last `w` entries. -/
def rollMeanLast (w : ℕ) (xs : List ℚ) : Fp :=
  if xs.length < w then Fp.nan else Fp.fin (listMean (lastN w xs))

/-- Maximum of a list of rationals (`Series.max()`; callers guarantee
nonemptiness). -/
def listMax (xs : List ℚ) : ℚ := xs.foldl max (xs.headD 0)

/-- Minimum of a list of rationals (`Series.min()`). -/
def listMin (xs : List ℚ) : ℚ := xs.foldl min (xs.headD 0)

/-- First index attaining the maximum (`Series.idxmax()` returns the first
maximal label in pandas). -/
def idxOfMax (xs : List ℚ) : ℕ := xs.findIdx (fun x => decide (listMax xs ≤ x))

/-- One OHLCV bar of an instrument series (시가/고가/저가/종가/거래량). -/
structure Bar where
  opn : ℚ
  high : ℚ
  low : ℚ
  close : ℚ
  volume : ℚ
deriving DecidableEq

def barDefault : Bar := ⟨0, 0, 0, 0, 0⟩

/-! ## scripts/wave_analysis.py -/

namespace wave_analysis

/-- Fibonacci/wave data returned by `identify_wave_pattern`. -/
structure FibData where
  wave3_high : ℚ
  wave4_low : ℚ
  fib_236 : ℚ
  fib_382 : ℚ
  in_fib_zone : Bool
  recent_rebound : Bool
deriving DecidableEq

/-- `calculate_bollinger_bands` (window 20): the returned flag `%B < 0.2`.
pandas computes `%B = (close - lower)/(upper - lower)` with
`upper/lower = mid ± 2·std` and sample standard deviation (ddof = 1).
Since the standard deviation is an irrational square root, the flag is
expressed by the equivalent square-free condition: for positive variance
`v`, `%B < 0.2 ↔ mid - close > (6/5)·√v ↔ 0 < mid - close ∧
36·v < 25·(mid - close)^2`; with fewer than 20 bars or zero variance the
float comparison involves `nan` and is false. -/
def calculate_bollinger_bands (df : List Bar) : Bool :=
  let closes := df.map Bar.close
  if closes.length < 20 then false
  else
    let w := lastN 20 closes
    let mid := listMean w
    let v := (w.map (fun x => (x - mid) ^ 2)).sum / 19
    let c := endD closes 1
    decide (0 < v ∧ 0 < mid - c ∧ 36 * v < 25 * (mid - c) ^ 2)

/-- The OBV series of `calculate_obv` as a function of the bar index:
starts at the volume of the first bar, adds volume on an up-close, subtracts on a
down-close, carries over on a flat close. -/
def obvAt (df : List Bar) : ℕ → ℚ
  | 0 => (df.getD 0 barDefault).volume
  | i + 1 =>
    if (df.getD i barDefault).close < (df.getD (i + 1) barDefault).close then
      obvAt df i + (df.getD (i + 1) barDefault).volume
    else if (df.getD (i + 1) barDefault).close < (df.getD i barDefault).close then
      obvAt df i - (df.getD (i + 1) barDefault).volume
    else obvAt df i

/-- `calculate_obv`: the returned flag `obv[-1] > obv_ma[-1]` where `obv_ma`
is the 10-bar rolling mean of the OBV series.  An empty frame raises in the
source and is caught, yielding `False`. -/
def calculate_obv (df : List Bar) : Bool :=
  if df.length = 0 then false
  else
    let obvs := (List.range df.length).map (obvAt df)
    Fp.blt (rollMeanLast 10 obvs) (Fp.fin (endD obvs 1))

/-- Exponentially weighted mean with `adjust=False`:
`e 0 = x 0`, `e i = α·x i + (1-α)·e (i-1)`. -/
def ewmaFrom (alpha : ℚ) (e : ℚ) : List ℚ → List ℚ
  | [] => []
  | x :: xs =>
      let v := alpha * x + (1 - alpha) * e
      v :: ewmaFrom alpha v xs

/-- `Series.ewm(span, adjust=False).mean()` with `α = 2/(span+1)`. -/
def ewma (alpha : ℚ) : List ℚ → List ℚ
  | [] => []
  | x :: xs => x :: ewmaFrom alpha x xs

/-- `calculate_macd`: returns `(hist_rising, golden_cross)`.
`macd = EMA12 - EMA26`, `signal = EMA9(macd)`, `hist = macd - signal`;
`hist_rising = hist[-1] > 0 ∧ hist[-1] > hist[-2] > hist[-3]`,
`golden_cross = macd[-2] < signal[-2] ∧ macd[-1] > signal[-1]`.
Fewer than 3 bars raises on `iloc[-3]` and is caught, yielding
`(False, False)`. -/
def calculate_macd (df : List Bar) : Bool × Bool :=
  let closes := df.map Bar.close
  if closes.length < 3 then (false, false)
  else
    let macd := List.zipWith (fun a b => a - b) (ewma (2/13) closes) (ewma (2/27) closes)
    let signal := ewma (2/10) macd
    let hist := List.zipWith (fun a b => a - b) macd signal
    let histRising :=
      decide (0 < endD hist 1) && decide (endD hist 2 < endD hist 1) &&
        decide (endD hist 3 < endD hist 2)
    let goldenCross :=
      decide (endD macd 2 < endD signal 2) && decide (endD signal 1 < endD macd 1)
    (histRising, goldenCross)

/-- Gain series of `calculate_rsi`: `delta.where(delta > 0, 0)` with the
leading `nan` of `diff()` masked to `0` by the false comparison. -/
def gains (closes : List ℚ) : List ℚ :=
  0 :: (List.zipWith (fun a b => a - b) closes.tail closes).map
    (fun d => if 0 < d then d else 0)

/-- Loss series of `calculate_rsi`: `-delta.where(delta < 0, 0)`. -/
def losses (closes : List ℚ) : List ℚ :=
  0 :: (List.zipWith (fun a b => a - b) closes.tail closes).map
    (fun d => if d < 0 then -d else 0)

/-- `100 - 100/(1 + avg_gain/avg_loss)` in float arithmetic. -/
def rsiFromGL (g l : Fp) : Fp :=
  Fp.sub (Fp.fin 100) (Fp.div (Fp.fin 100) (Fp.add (Fp.fin 1) (Fp.div g l)))

/-- The RSI(14) value at the final bar of a close series. -/
def rsiAtEnd (closes : List ℚ) : Fp :=
  rsiFromGL (rollMeanLast 14 (gains closes)) (rollMeanLast 14 (losses closes))

/-- `calculate_rsi`: returns `(rsi, oversold, rsi_rising)` where
`oversold = rsi[-1] < 30` and `rsi_rising = rsi[-1] > rsi[-2] > rsi[-3]`.
Fewer than 3 bars raises on `iloc[-3]` and is caught, yielding the sentinel
`(None, False, False)`. -/
def calculate_rsi (df : List Bar) : Option Fp × Bool × Bool :=
  let closes := df.map Bar.close
  if closes.length < 3 then (none, false, false)
  else
    let r1 := rsiAtEnd closes
    let r2 := rsiAtEnd closes.dropLast
    let r3 := rsiAtEnd closes.dropLast.dropLast
    (some r1, Fp.blt r1 (Fp.fin 30), Fp.blt r2 r1 && Fp.blt r3 r2)

/-- `check_volume_trend`: `(vol_increasing, vol_decrease_pattern)` with
`vol_increasing = vol[-1] > vol_ma10[-1]` and
`vol_decrease_pattern = vol[-4] > vol[-3] > vol[-2]`.  Fewer than 4 bars
raises on `iloc[-4]` and is caught, yielding `(False, False)`. -/
def check_volume_trend (df : List Bar) : Bool × Bool :=
  let vols := df.map Bar.volume
  if vols.length < 4 then (false, false)
  else
    (Fp.blt (rollMeanLast 10 vols) (Fp.fin (endD vols 1)),
     decide (endD vols 3 < endD vols 4) && decide (endD vols 2 < endD vols 3))

/-- `check_market_cap`: market cap at least 3000억 (3·10^11). -/
def check_market_cap (marcap : ℚ) : Bool := decide (300000000000 ≤ marcap)

/-- `check_close_to_ma240` (weekly): close within the `[0.5, 1.5]` band of
the 240-bar moving average; fewer than 240 bars fails. -/
def check_close_to_ma240 (df : List Bar) : Bool :=
  if df.length < 240 then false
  else
    let closes := df.map Bar.close
    let ma := listMean (lastN 240 closes)
    let c := endD closes 1
    decide (ma * (1/2) ≤ c ∧ c ≤ ma * (3/2))

/-- `identify_wave_pattern`: finds the max high over the last 20 bars
(first maximal index, as `idxmax`), the min low over the 10 bars from that
peak, computes the 23.6% and 38.2% retracement levels down from the peak,
and flags whether the current close lies between them and whether it rose
versus the previous close.  Fewer than 30 bars, or a peak at the final bar,
yields `None`. -/
def identify_wave_pattern (df : List Bar) : Option FibData :=
  if df.length < 30 then none
  else
    let highs := df.map Bar.high
    let recentHighs := lastN 20 highs
    let wave3High := listMax recentHighs
    let highPos := df.length - 20 + idxOfMax recentHighs
    if highPos < df.length - 1 then
      let post := (df.drop highPos).take 10
      let wave4Low := listMin (post.map Bar.low)
      let waveRange := wave3High - wave4Low
      let fib382 := wave3High - waveRange * (382/1000)
      let fib236 := wave3High - waveRange * (236/1000)
      let closes := df.map Bar.close
      let current := endD closes 1
      some
        { wave3_high := wave3High
          wave4_low := wave4Low
          fib_236 := fib236
          fib_382 := fib382
          in_fib_zone := decide (current ≤ fib236 ∧ fib382 ≤ current)
          recent_rebound := decide (endD closes 2 < current) }
    else none

/-- The per-instrument criterion outcomes feeding the composite score of
`process_stock` (lines 285-309 of wave_analysis.py). -/
structure WaveFlags where
  rsi : Option Fp
  oversold : Bool
  rsi_rising : Bool
  in_bollinger_low : Bool
  macd_hist_rising : Bool
  macd_golden_cross : Bool
  obv_rising : Bool
  vol_decrease_pattern : Bool
  pass_ma240 : Bool
  pass_marcap : Bool
  wave_data : Option FibData
deriving DecidableEq

/-- `pass_fib`: the wave data exists and has both the in-zone and the
rebound flag set (line 306 of wave_analysis.py). -/
def pass_fib (fl : WaveFlags) : Bool :=
  match fl.wave_data with
  | some w => w.in_fib_zone && w.recent_rebound
  | none => false

/-- Indicator computation stage of `process_stock`. -/
def wave_flags (df : List Bar) (marcap : ℚ) : WaveFlags :=
  { rsi := (calculate_rsi df).1
    oversold := (calculate_rsi df).2.1
    rsi_rising := (calculate_rsi df).2.2
    in_bollinger_low := calculate_bollinger_bands df
    macd_hist_rising := (calculate_macd df).1
    macd_golden_cross := (calculate_macd df).2
    obv_rising := calculate_obv df
    vol_decrease_pattern := (check_volume_trend df).2
    pass_ma240 := check_close_to_ma240 df
    pass_marcap := check_market_cap marcap
    wave_data := identify_wave_pattern df }

/-- Composite score of `process_stock` (lines 311-321): weighted sum of the
criterion outcomes. -/
def score (fl : WaveFlags) : ℕ :=
  (if pass_fib fl then 3 else 0) +
  (if fl.in_bollinger_low then 2 else 0) +
  (if fl.oversold && fl.rsi_rising then 3 else 0) +
  (if fl.macd_golden_cross then 2 else 0) +
  (if fl.macd_hist_rising then 1 else 0) +
  (if fl.obv_rising then 1 else 0) +
  (if fl.vol_decrease_pattern then 1 else 0) +
  (if fl.pass_ma240 then 1 else 0) +
  (if fl.pass_marcap then 1 else 0)

/-- The result dictionary built by `process_stock` when `score >= 7`. -/
structure WaveResult where
  code : ℕ
  score : ℕ
  rsi : Option Fp
  fib_zone : Bool
  fib_data : Option FibData
  bollinger_low : Bool
  macd_cross : Bool
  obv_rising : Bool
  rebound : Bool
  vol_trend : Bool
deriving DecidableEq

/-- Selection stage of `process_stock` (lines 325-339): return the result
dictionary iff the composite score is at least 7. -/
def waveSelect (code : ℕ) (fl : WaveFlags) : Option WaveResult :=
  if 7 ≤ score fl then
    some
      { code := code
        score := score fl
        rsi := fl.rsi
        fib_zone := match fl.wave_data with | some w => w.in_fib_zone | none => false
        fib_data := fl.wave_data
        bollinger_low := fl.in_bollinger_low
        macd_cross := fl.macd_golden_cross
        obv_rising := fl.obv_rising
        rebound := match fl.wave_data with | some w => w.recent_rebound | none => false
        vol_trend := fl.vol_decrease_pattern }
  else none

/-- `process_stock` of the wave screener: requires at least 52 weekly bars,
computes the criterion flags and selects by the composite score. -/
def process_stock (code : ℕ) (df : List Bar) (marcap : ℚ) : Option WaveResult :=
  if df.length < 52 then none
  else waveSelect code (wave_flags df marcap)

end wave_analysis

/-! ## scripts/potential_stock_finder.py -/

namespace potential_stock_finder

/-- One attempt of the upstream call inside `safe_stock_api_call`: either a
non-`None` result, a `None` result, a `requests.exceptions.JSONDecodeError`,
or any other exception. -/
inductive CallOutcome (α : Type) where
  | success : α → CallOutcome α
  | noneResult : CallOutcome α
  | jsonError : CallOutcome α
  | otherError : CallOutcome α
deriving DecidableEq

/-- An attempt that did not produce a usable result. -/
def CallOutcome.isFail {α : Type} : CallOutcome α → Bool
  | .success _ => false
  | _ => true

/-- The sleep performed after a failed attempt: `delay * 2` for a malformed
JSON response (likely rate limit), `delay` otherwise. -/
def CallOutcome.sleepFor {α : Type} (delay : ℕ) : CallOutcome α → ℕ
  | .jsonError => delay * 2
  | _ => delay

/-- Observable behaviour of one run of `safe_stock_api_call`: the returned
value (`none` is the DefiniteFailure sentinel), the sleeps performed between
attempts (durations in seconds, in order), and how many times the wrapped
function was invoked. -/
structure CallTrace (α : Type) where
  result : Option α
  sleeps : List ℕ
  attempts : ℕ
deriving DecidableEq

/-- The retry loop of `safe_stock_api_call`, with `idx` the 0-based index of
the next attempt and `remaining` the attempts left.  A `None` result sleeps
`delay` and retries; a JSON decoding error sleeps `delay * 2` (rate-limit
suspicion) and retries; any other exception sleeps `delay` and retries
unless this was the final attempt, in which case it is logged and `None` is
returned; an exhausted loop returns `None`. -/
def safe_api_go {α : Type} (f : ℕ → CallOutcome α) (delay : ℕ) :
    ℕ → ℕ → CallTrace α
  | _, 0 => ⟨none, [], 0⟩
  | idx, remaining + 1 =>
    match f idx with
    | .success v => ⟨some v, [], 1⟩
    | .noneResult =>
        let t := safe_api_go f delay (idx + 1) remaining
        ⟨t.result, delay :: t.sleeps, t.attempts + 1⟩
    | .jsonError =>
        let t := safe_api_go f delay (idx + 1) remaining
        ⟨t.result, delay * 2 :: t.sleeps, t.attempts + 1⟩
    | .otherError =>
        if remaining = 0 then ⟨none, [], 1⟩
        else
          let t := safe_api_go f delay (idx + 1) remaining
          ⟨t.result, delay :: t.sleeps, t.attempts + 1⟩

/-- `safe_stock_api_call(func, retries, delay)` where `f i` is the outcome of
the `i`-th attempt of the wrapped upstream call (defaults in the source:
`retries = 5`, `delay = 3`). -/
def safe_stock_api_call {α : Type} (f : ℕ → CallOutcome α)
    (retries delay : ℕ) : CallTrace α :=
  safe_api_go f delay 0 retries

/-- `check_close_to_ma240` (daily): |close - MA240| / MA240 < 0.10, with
float division semantics; fewer than 240 bars fails. -/
def check_close_to_ma240 (df : List Bar) : Bool :=
  if df.length < 240 then false
  else
    let closes := df.map Bar.close
    let ma := listMean (lastN 240 closes)
    let c := endD closes 1
    Fp.blt (fdivQ |c - ma| ma) (Fp.fin (1/10))

/-- `check_ma_transition`: MA20 crossed above MA60 between the last two bars,
or MA20 is already above MA60; fewer than 60 bars fails. -/
def check_ma_transition (df : List Bar) : Bool :=
  if df.length < 60 then false
  else
    let closes := df.map Bar.close
    let ma20Last := rollMeanLast 20 closes
    let ma60Last := rollMeanLast 60 closes
    let ma20Prev := rollMeanLast 20 closes.dropLast
    let ma60Prev := rollMeanLast 60 closes.dropLast
    let crossover := Fp.blt ma20Prev ma60Prev && Fp.blt ma60Last ma20Last
    crossover || Fp.blt ma60Last ma20Last

/-- `volume_ma20` at absolute bar index `i` (the 20-bar rolling mean of
volume ending at `i`). -/
def volume_ma20_at (df : List Bar) (i : ℕ) : Fp :=
  rollMeanLast 20 ((df.map Bar.volume).take (i + 1))

/-- Criterion 1 of `process_stock`: some bar among the last 5 has volume
more than twice its 20-day rolling average. -/
def recent_volume_surge (df : List Bar) : Bool :=
  (List.range 5).any (fun j =>
    Fp.blt (Fp.mul (volume_ma20_at df (df.length - 5 + j)) (Fp.fin 2))
      (Fp.fin (endD (df.map Bar.volume) (5 - j))))

/-- Criterion 2: MA20 above MA60 at the last bar (the source returns `None`
when `ma20 <= ma60`). -/
def crit_ma20_above_ma60 (df : List Bar) : Bool :=
  !(Fp.ble (rollMeanLast 20 (df.map Bar.close)) (rollMeanLast 60 (df.map Bar.close)))

/-- Criterion 3: MA60 above MA120 at the last bar. -/
def crit_ma60_above_ma120 (df : List Bar) : Bool :=
  !(Fp.ble (rollMeanLast 60 (df.map Bar.close)) (rollMeanLast 120 (df.map Bar.close)))

/-- Criterion 4: the last close above MA20. -/
def crit_close_above_ma20 (df : List Bar) : Bool :=
  !(Fp.ble (Fp.fin (endD (df.map Bar.close) 1)) (rollMeanLast 20 (df.map Bar.close)))

/-- Criterion 5: market-cap ceiling (the source returns `None` when the cap
exceeds 2조원 = 2·10^12). -/
def crit_cap_below_ceiling (marcap : ℚ) : Bool :=
  !(decide (2000000000000 < marcap))

/-- `pct_change()` of a close series (float semantics; the leading `nan` of
pandas is dropped, as the source applies `.dropna()`). -/
def pct_changes (xs : List ℚ) : List Fp :=
  List.zipWith (fun b a => fdivQ (b - a) a) xs.tail xs

/-- Criterion 6: at least 3 of the 4 percentage changes over the last 5
closes are positive. -/
def crit_recent_up_days (df : List Bar) : Bool :=
  decide (3 ≤ (pct_changes (lastN 5 (df.map Bar.close))).countP
    (fun x => Fp.blt (Fp.fin 0) x))

/-- `process_stock` of the breakout screener (lines 159-230): a chain of
early `return None`s — an empty frame, fewer than 100 bars, or any failing
criterion yields `None`; otherwise the instrument code is returned. -/
def process_stock (code : ℕ) (market_cap : ℚ) (df : List Bar) : Option ℕ :=
  if df.length = 0 then none
  else if df.length < 100 then none
  else if recent_volume_surge df = false then none
  else if crit_ma20_above_ma60 df = false then none
  else if crit_ma60_above_ma120 df = false then none
  else if crit_close_above_ma20 df = false then none
  else if crit_cap_below_ceiling market_cap = false then none
  else if crit_recent_up_days df = false then none
  else some code

end potential_stock_finder

/-! ## scripts/tqqq_analysis.py -/

namespace tqqq_analysis

/-- The three recommendations of the trend screener; the source uses the
strings "SGOV", "TQQQ" and "SPLG". -/
inductive Reco where
  | SGOV : Reco
  | TQQQ : Reco
  | SPLG : Reco
deriving DecidableEq

/-- The dictionary returned by `analyze_tqqq`. -/
structure TqqqResult where
  close_price : ℚ
  ma200 : Fp
  envelope : Fp
  diff : Fp
  recommendation : Reco
deriving DecidableEq

/-- `analyze_tqqq` on a fetched close series: `None` models the fetch
failure path (`get_tqqq_data` returns `None` for an empty history).
Otherwise MA200 and the 10% envelope are computed (both `nan` with fewer
than 200 bars) and the latest close is classified:
below MA200 → SGOV; at/above MA200 and below the envelope → TQQQ;
otherwise → SPLG. -/
def analyze_tqqq (closes : List ℚ) : Option TqqqResult :=
  if closes.length = 0 then none
  else
    let c := endD closes 1
    let ma200 := rollMeanLast 200 closes
    let envelope := Fp.mul ma200 (Fp.fin (11/10))
    let reco :=
      if Fp.blt (Fp.fin c) ma200 then Reco.SGOV
      else if Fp.ble ma200 (Fp.fin c) && Fp.blt (Fp.fin c) envelope then Reco.TQQQ
      else Reco.SPLG
    some
      { close_price := c
        ma200 := ma200
        envelope := envelope
        diff := Fp.sub (Fp.fin c) ma200
        recommendation := reco }

end tqqq_analysis

/-! ## Concrete fixtures -/

/-- 52 constant weekly bars (enough history for the wave screener gate). -/
def wDf : List Bar := List.replicate 52 ⟨1, 1, 1, 1, 1⟩

/-- 120 constant daily bars (every rolling window of the breakout screener
is defined). -/
def bDf : List Bar := List.replicate 120 ⟨1, 1, 1, 1, 1⟩

/-- A stub upstream call: malformed JSON on the first attempt, success on
the second. -/
def stubCall : ℕ → potential_stock_finder.CallOutcome ℕ :=
  fun i => if i = 0 then .jsonError else .success 7

/-- A stub upstream call that fails on every attempt. -/
def stubCallFail : ℕ → potential_stock_finder.CallOutcome ℕ :=
  fun _ => .otherError

/-- 200 closes at 100 (MA200 defined and equal to the close). -/
def tqCloses : List ℚ := List.replicate 200 100

/-- A fetched-but-short close series (fewer than 200 bars). -/
def tqShort : List ℚ := [55, 60, 70]

/-- 15 bars with constant closes: every gain and loss is zero, the RSI
degenerate case. -/
def rsiDf : List Bar := List.replicate 15 ⟨1, 1, 1, 5, 1⟩

/-- First 28 bars of the synthetic decline-then-rebound series: peak high
100 at index 12, trough low 50 at index 15 (within 10 bars of the peak). -/
def fibBody : List Bar :=
  List.replicate 10 ⟨1, 60, 55, 58, 10⟩ ++
  [⟨1, 70, 60, 65, 10⟩, ⟨1, 70, 60, 65, 10⟩, ⟨1, 100, 70, 90, 10⟩,
   ⟨1, 80, 60, 70, 10⟩, ⟨1, 80, 60, 70, 10⟩, ⟨1, 70, 50, 60, 10⟩] ++
  List.replicate 6 ⟨1, 75, 55, 65, 10⟩ ++
  List.replicate 6 ⟨1, 80, 62, 70, 10⟩

/-- Peak 100, trough 50, current close 69 after a rebound from 68. -/
def fibDf69 : List Bar := fibBody ++ [⟨1, 85, 66, 68, 10⟩, ⟨1, 90, 68, 69, 10⟩]

/-- The wave data computed on `fibDf69`: the 23.6%/38.2% levels measured
down from the peak are 88.2 and 80.9, and 69 is below the zone. -/
def fibW69 : wave_analysis.FibData := ⟨100, 50, 441/5, 809/10, false, true⟩

/-- Peak 100, trough 50, current close 85 after a rebound from 84. -/
def zoneDf : List Bar := fibBody ++ [⟨1, 85, 66, 84, 10⟩, ⟨1, 90, 68, 85, 10⟩]

/-- The wave data computed on `zoneDf`: 85 lies inside `[80.9, 88.2]`. -/
def zoneW : wave_analysis.FibData := ⟨100, 50, 441/5, 809/10, true, true⟩

/-- A series far shorter than every rolling window. -/
def shortDf : List Bar := List.replicate 3 ⟨1, 1, 1, 1, 1⟩

/-- Three bars with strictly increasing closes. -/
def obvDf : List Bar := [⟨1, 1, 1, 1, 5⟩, ⟨1, 1, 1, 2, 7⟩, ⟨1, 1, 1, 3, 9⟩]

/-- 60 bars whose MA20 first exceeds MA60 exactly at the final bar. -/
def maDf : List Bar :=
  List.replicate 40 ⟨0, 0, 0, 0, 0⟩ ++ List.replicate 20 ⟨1, 1, 1, 1, 1⟩

/-- Criterion flags scoring 8: Fibonacci zone+rebound (3), Bollinger (2),
RSI oversold+rising (3); market-cap floor not met. -/
def flagsBase : wave_analysis.WaveFlags :=
  { rsi := some (Fp.fin 25)
    oversold := true
    rsi_rising := true
    in_bollinger_low := true
    macd_hist_rising := false
    macd_golden_cross := false
    obv_rising := false
    vol_decrease_pattern := false
    pass_ma240 := false
    pass_marcap := false
    wave_data := some ⟨100, 50, 441/5, 809/10, true, true⟩ }

/-- The same criterion flags with the market-cap floor met (score 9): every
field stored in the result dictionary is unchanged. -/
def flagsCap : wave_analysis.WaveFlags := { flagsBase with pass_marcap := true }

/-- The result `process_stock` builds from `flagsBase`. -/
def resBase : wave_analysis.WaveResult :=
  { code := 1
    score := 8
    rsi := some (Fp.fin 25)
    fib_zone := true
    fib_data := some ⟨100, 50, 441/5, 809/10, true, true⟩
    bollinger_low := true
    macd_cross := false
    obv_rising := false
    rebound := true
    vol_trend := false }

/-! ## Helper lemmas -/

theorem Fp.blt_nan_right (a : Fp) : Fp.blt a Fp.nan = false := by cases a <;> rfl

theorem Fp.ble_nan_right (a : Fp) : Fp.ble a Fp.nan = false := by cases a <;> rfl

/-! ## Claim C7 -/

/-- Claim C7: a rolling-window check evaluated on a series with fewer bars
than its required window returns its designated failure value `false`
(MA240 band check below 240 bars, MA-transition check below 60 bars) and,
being a total function, never raises. -/
theorem rolling_checks_fail_on_short_series (df : List Bar) :
    (df.length < 240 → potential_stock_finder.check_close_to_ma240 df = false) ∧
    (df.length < 60 → potential_stock_finder.check_ma_transition df = false) := by
  constructor
  · intro h
    unfold potential_stock_finder.check_close_to_ma240
    rw [if_pos h]
  · intro h
    unfold potential_stock_finder.check_ma_transition
    rw [if_pos h]

/-- Witness for C7 at a concrete 3-bar series. -/
theorem rolling_checks_fail_on_short_series_witness :
    shortDf.length < 240 ∧ shortDf.length < 60 ∧
    potential_stock_finder.check_close_to_ma240 shortDf = false ∧
    potential_stock_finder.check_ma_transition shortDf = false :=
  ⟨by decide, by decide,
   (rolling_checks_fail_on_short_series shortDf).1 (by decide),
   (rolling_checks_fail_on_short_series shortDf).2 (by decide)⟩

/-! ## Claim C8 -/

/-- Claim C8: OBV starts at the volume of the first bar, and on a series whose
closes strictly increase at every bar, OBV at bar `t` equals OBV at bar `0`
plus the sum of the volumes of bars `1..t`. -/
theorem obv_cumulative (df : List Bar) :
    wave_analysis.obvAt df 0 = (df.getD 0 barDefault).volume ∧
    ((∀ i, i < df.length - 1 →
        (df.getD i barDefault).close < (df.getD (i + 1) barDefault).close) →
      ∀ t, t < df.length →
        wave_analysis.obvAt df t =
          wave_analysis.obvAt df 0 +
            ((List.range t).map (fun i => (df.getD (i + 1) barDefault).volume)).sum) := by
  refine ⟨rfl, ?_⟩
  intro hmono t
  induction t with
  | zero => intro _; simp
  | succ t ih =>
    intro ht
    have ht1 : t < df.length := Nat.lt_of_succ_lt ht
    have hup : (df.getD t barDefault).close < (df.getD (t + 1) barDefault).close :=
      hmono t (by omega)
    have step : wave_analysis.obvAt df (t + 1) =
        wave_analysis.obvAt df t + (df.getD (t + 1) barDefault).volume := by
      rw [wave_analysis.obvAt, if_pos hup]
    rw [step, ih ht1, List.range_succ, List.map_append, List.sum_append]
    simp [add_assoc]

/-- Witness for C8 at a concrete strictly increasing 3-bar series. -/
theorem obv_cumulative_witness :
    (∀ i, i < obvDf.length - 1 →
        (obvDf.getD i barDefault).close < (obvDf.getD (i + 1) barDefault).close) ∧
    2 < obvDf.length ∧
    wave_analysis.obvAt obvDf 2 =
      wave_analysis.obvAt obvDf 0 +
        ((List.range 2).map (fun i => (obvDf.getD (i + 1) barDefault).volume)).sum :=
  ⟨by decide, by decide, (obv_cumulative obvDf).2 (by decide) 2 (by decide)⟩

/-! ## Claim C4 -/

/-- Counterexample for C4 as stated: on a fetched-but-short series (3 bars,
not enough for the 200-day MA) `analyze_tqqq` does not produce a definite
insufficient-data result — the `nan` comparisons fall through to the final
branch and it recommends the broad-market asset SPLG. -/
theorem analyze_tqqq_short_series_recommends :
    (tqqq_analysis.analyze_tqqq tqShort).map tqqq_analysis.TqqqResult.recommendation =
      some tqqq_analysis.Reco.SPLG ∧
    tqqq_analysis.analyze_tqqq tqShort ≠ none := by
  exact ⟨by decide, by decide⟩

/-- Claim C4 (amended): given at least 200 bars, the trend screener produces
exactly one of three mutually exclusive recommendations — close below MA200
gives SGOV, close at/above MA200 but below the 1.10x envelope gives TQQQ,
close at/above the envelope gives SPLG.  A nonempty series shorter than 200
bars does NOT give an insufficient-data result: the `nan`-valued MA200 makes
both tests false and the final branch recommends SPLG; only a failed/empty
fetch yields the definite `None`. -/
theorem analyze_tqqq_classification (closes : List ℚ) :
    (200 ≤ closes.length →
      (endD closes 1 < listMean (lastN 200 closes) →
        (tqqq_analysis.analyze_tqqq closes).map tqqq_analysis.TqqqResult.recommendation =
          some tqqq_analysis.Reco.SGOV) ∧
      (listMean (lastN 200 closes) ≤ endD closes 1 ∧
          endD closes 1 < listMean (lastN 200 closes) * (11/10) →
        (tqqq_analysis.analyze_tqqq closes).map tqqq_analysis.TqqqResult.recommendation =
          some tqqq_analysis.Reco.TQQQ) ∧
      (listMean (lastN 200 closes) ≤ endD closes 1 ∧
          listMean (lastN 200 closes) * (11/10) ≤ endD closes 1 →
        (tqqq_analysis.analyze_tqqq closes).map tqqq_analysis.TqqqResult.recommendation =
          some tqqq_analysis.Reco.SPLG)) ∧
    (1 ≤ closes.length → closes.length < 200 →
      (tqqq_analysis.analyze_tqqq closes).map tqqq_analysis.TqqqResult.recommendation =
        some tqqq_analysis.Reco.SPLG) := by
  constructor
  · intro h200
    have hne : ¬ closes.length = 0 := by omega
    have hroll : rollMeanLast 200 closes = Fp.fin (listMean (lastN 200 closes)) := by
      unfold rollMeanLast
      rw [if_neg (by omega)]
    refine ⟨?_, ?_, ?_⟩
    · intro h
      simp only [tqqq_analysis.analyze_tqqq, hroll, if_neg hne]
      rw [if_pos (by simp [Fp.blt, h])]
      simp
    · rintro ⟨h1, h2⟩
      simp only [tqqq_analysis.analyze_tqqq, hroll, if_neg hne]
      rw [if_neg (by simp [Fp.blt, not_lt.2 h1]),
        if_pos (by simp [Fp.ble, Fp.blt, Fp.mul, h1, h2])]
      simp
    · rintro ⟨h1, h2⟩
      simp only [tqqq_analysis.analyze_tqqq, hroll, if_neg hne]
      rw [if_neg (by simp [Fp.blt, not_lt.2 h1]),
        if_neg (by simp [Fp.ble, Fp.blt, Fp.mul, not_lt.2 h2])]
      simp
  · intro h1 h2
    have hne : ¬ closes.length = 0 := by omega
    have hroll : rollMeanLast 200 closes = Fp.nan := by
      unfold rollMeanLast
      rw [if_pos (by omega)]
    simp only [tqqq_analysis.analyze_tqqq, hroll, if_neg hne]
    rw [if_neg (by simp [Fp.blt_nan_right]), if_neg (by simp [Fp.ble])]
    simp

/-- Evaluation helper: the 200-bar mean of the constant series. -/
theorem tqCloses_mean_eq : listMean (lastN 200 tqCloses) = 100 := by
  have h : lastN 200 tqCloses = tqCloses := by
    unfold lastN tqCloses
    norm_num
  rw [h]
  unfold listMean tqCloses
  rw [List.sum_replicate, List.length_replicate]
  norm_num

/-- Evaluation helper: the final close of the constant series. -/
theorem tqCloses_endD_eq : endD tqCloses 1 = 100 := by
  unfold endD tqCloses
  rw [List.length_replicate]
  norm_num [List.getD, List.getElem?_replicate]

/-- Witness for C4 at a concrete 200-bar series: the close sits on its own
MA200, so the TQQQ branch applies. -/
theorem analyze_tqqq_classification_witness :
    200 ≤ tqCloses.length ∧
    (tqqq_analysis.analyze_tqqq tqCloses).map tqqq_analysis.TqqqResult.recommendation =
      some tqqq_analysis.Reco.TQQQ :=
  ⟨by simp [tqCloses],
   ((analyze_tqqq_classification tqCloses).1 (by simp [tqCloses])).2.1
     (by rw [tqCloses_mean_eq, tqCloses_endD_eq]; norm_num)⟩

/-! ## Claim C6 -/

/-- Counterexample for C6 as stated: on the synthetic decline-then-rebound
series with peak 100 and trough 50, a current price of 69 (the 38.2%
rebound from the trough) is NOT classified as in the Fibonacci zone — the
code anchors both levels at the peak (zone `[80.9, 88.2]`), uses a single
formula with no direction-awareness and produces no bracket classification. -/
theorem fib_price_69_not_in_zone :
    wave_analysis.identify_wave_pattern fibDf69 = some fibW69 ∧
    endD (fibDf69.map Bar.close) 1 = 69 ∧
    fibW69.wave3_high = 100 ∧ fibW69.wave4_low = 50 ∧
    fibW69.in_fib_zone = false := by
  refine ⟨?_, ?_, rfl, rfl, rfl⟩
  · norm_num [wave_analysis.identify_wave_pattern, fibDf69, fibBody, fibW69, idxOfMax,
      listMax, listMin, lastN, endD, List.replicate, List.findIdx_cons]
  · norm_num [fibDf69, fibBody, endD, List.replicate]

/-- Claim C6 (amended): `identify_wave_pattern` uses one peak-anchored
formula (no direction split, no bracket classification): it computes only
the 23.6% and 38.2% levels measured down from the recent peak, and flags
"in zone" exactly when the current close lies between them, i.e. in
`[peak - 0.382·range, peak - 0.236·range]`; the rebound flag is exactly
"last close above the previous close". -/
theorem identify_wave_pattern_single_formula (df : List Bar)
    (w : wave_analysis.FibData)
    (h : wave_analysis.identify_wave_pattern df = some w) :
    w.fib_382 = w.wave3_high - (w.wave3_high - w.wave4_low) * (382/1000) ∧
    w.fib_236 = w.wave3_high - (w.wave3_high - w.wave4_low) * (236/1000) ∧
    (w.in_fib_zone = true ↔
      (w.fib_382 ≤ endD (df.map Bar.close) 1 ∧
        endD (df.map Bar.close) 1 ≤ w.fib_236)) ∧
    (w.recent_rebound = true ↔
      endD (df.map Bar.close) 2 < endD (df.map Bar.close) 1) := by
  unfold wave_analysis.identify_wave_pattern at h
  by_cases h30 : df.length < 30
  · rw [if_pos h30] at h
    exact absurd h (by simp)
  rw [if_neg h30] at h
  by_cases hpos : df.length - 20 + idxOfMax (lastN 20 (df.map Bar.high)) < df.length - 1
  · rw [if_pos hpos] at h
    simp only [Option.some.injEq] at h
    subst h
    refine ⟨rfl, rfl, ?_, ?_⟩
    · simp only [decide_eq_true_eq]
      exact ⟨fun hz => ⟨hz.2, hz.1⟩, fun hz => ⟨hz.2, hz.1⟩⟩
    · simp only [decide_eq_true_eq]
  · rw [if_neg hpos] at h
    exact absurd h (by simp)

/-- Witness for C6 at a concrete series whose current close 85 lies inside
the peak-anchored zone `[80.9, 88.2]`. -/
theorem identify_wave_pattern_single_formula_witness :
    wave_analysis.identify_wave_pattern zoneDf = some zoneW ∧
    (zoneW.in_fib_zone = true ↔
      (zoneW.fib_382 ≤ endD (zoneDf.map Bar.close) 1 ∧
        endD (zoneDf.map Bar.close) 1 ≤ zoneW.fib_236)) :=
  ⟨by norm_num [wave_analysis.identify_wave_pattern, zoneDf, fibBody, zoneW, idxOfMax,
      listMax, listMin, lastN, endD, List.replicate, List.findIdx_cons],
   (identify_wave_pattern_single_formula zoneDf zoneW
     (by norm_num [wave_analysis.identify_wave_pattern, zoneDf, fibBody, zoneW, idxOfMax,
        listMax, listMin, lastN, endD, List.replicate, List.findIdx_cons])).2.2.1⟩

/-! ## Claim C3 -/

/-- Helper: if the attempts starting at `idx` fail `k` times and then
succeed, the retry loop returns the successful value after `k + 1` calls,
having slept once per failure (`delay * 2` exactly for malformed-JSON
failures, `delay` otherwise). -/
theorem safe_api_go_success {α : Type} (f : ℕ → potential_stock_finder.CallOutcome α)
    (delay : ℕ) :
    ∀ (k rem idx : ℕ) (v : α), k < rem →
      (∀ i, i < k → (f (idx + i)).isFail = true) →
      f (idx + k) = .success v →
      potential_stock_finder.safe_api_go f delay idx rem =
        ⟨some v,
         (List.range k).map
           (fun i => (f (idx + i)).sleepFor delay),
         k + 1⟩ := by
  intro k
  induction k with
  | zero =>
    intro rem idx v hk _ hs
    match rem, hk with
    | rem + 1, _ =>
      rw [Nat.add_zero] at hs
      simp [potential_stock_finder.safe_api_go, hs]
  | succ k ih =>
    intro rem idx v hk hfail hs
    match rem, hk with
    | rem + 1, hk =>
      have hrem : k < rem := by omega
      have h0 : (f idx).isFail = true := by
        have := hfail 0 (by omega)
        simpa using this
      have hfail2 : ∀ i, i < k → (f (idx + 1 + i)).isFail = true := by
        intro i hi
        have := hfail (i + 1) (by omega)
        simpa [Nat.add_assoc, Nat.add_comm 1 i] using this
      have hs2 : f (idx + 1 + k) = .success v := by
        have he : idx + 1 + k = idx + (k + 1) := by omega
        rw [he]
        exact hs
      have hshift : ∀ i : ℕ, idx + (i + 1) = idx + 1 + i := by omega
      have hrange : (List.range (k + 1)).map
            (fun i => (f (idx + i)).sleepFor delay) =
          (f idx).sleepFor delay ::
            (List.range k).map (fun i => (f (idx + 1 + i)).sleepFor delay) := by
        have hfun : ((fun i => (f (idx + i)).sleepFor delay) ∘ Nat.succ) =
            (fun i => (f (idx + 1 + i)).sleepFor delay) := by
          funext i
          simp only [Function.comp_apply, Nat.succ_eq_add_one]
          rw [hshift i]
        rw [List.range_succ_eq_map, List.map_cons, List.map_map, hfun]
        norm_num
      cases hf : f idx with
      | success w =>
        rw [hf] at h0
        simp [potential_stock_finder.CallOutcome.isFail] at h0
      | noneResult =>
        simp only [potential_stock_finder.safe_api_go, hf]
        rw [ih rem (idx + 1) v hrem hfail2 hs2, hrange, hf]
        simp [potential_stock_finder.CallOutcome.sleepFor]
      | jsonError =>
        simp only [potential_stock_finder.safe_api_go, hf]
        rw [ih rem (idx + 1) v hrem hfail2 hs2, hrange, hf]
        simp [potential_stock_finder.CallOutcome.sleepFor]
      | otherError =>
        have hrem0 : ¬ rem = 0 := by omega
        simp only [potential_stock_finder.safe_api_go, hf]
        rw [if_neg hrem0, ih rem (idx + 1) v hrem hfail2 hs2, hrange, hf]
        simp [potential_stock_finder.CallOutcome.sleepFor]

/-- Helper: if every attempt fails, the retry loop returns the
DefiniteFailure sentinel `none` after exactly `rem` calls. -/
theorem safe_api_go_allfail {α : Type} (f : ℕ → potential_stock_finder.CallOutcome α)
    (delay : ℕ) :
    ∀ (rem idx : ℕ), (∀ i, i < rem → (f (idx + i)).isFail = true) →
      (potential_stock_finder.safe_api_go f delay idx rem).result = none ∧
      (potential_stock_finder.safe_api_go f delay idx rem).attempts = rem := by
  intro rem
  induction rem with
  | zero =>
    intro idx _
    exact ⟨rfl, rfl⟩
  | succ rem ih =>
    intro idx hfail
    have h0 : (f idx).isFail = true := by
      have := hfail 0 (by omega)
      simpa using this
    have hfail2 : ∀ i, i < rem → (f (idx + 1 + i)).isFail = true := by
      intro i hi
      have := hfail (i + 1) (by omega)
      have he : idx + (i + 1) = idx + 1 + i := by omega
      rw [he] at this
      exact this
    cases hf : f idx with
    | success w =>
      rw [hf] at h0
      simp [potential_stock_finder.CallOutcome.isFail] at h0
    | noneResult =>
      have h := ih (idx + 1) hfail2
      simp only [potential_stock_finder.safe_api_go, hf]
      exact ⟨h.1, by rw [h.2]⟩
    | jsonError =>
      have h := ih (idx + 1) hfail2
      simp only [potential_stock_finder.safe_api_go, hf]
      exact ⟨h.1, by rw [h.2]⟩
    | otherError =>
      by_cases hrem0 : rem = 0
      · subst hrem0
        simp [potential_stock_finder.safe_api_go, hf]
      · have h := ih (idx + 1) hfail2
        simp only [potential_stock_finder.safe_api_go, hf]
        rw [if_neg hrem0]
        exact ⟨h.1, by simp [h.2]⟩

/-- Claim C3: for the retry wrapper `safe_stock_api_call` with `N = retries`
attempts: if the wrapped call fails (raises or returns `None`) on the first
`k < N` attempts and succeeds on attempt `k + 1`, the wrapper returns the
successful result having performed exactly `k` sleeps, each of duration
`delay * 2` exactly when the corresponding failure was a malformed/non-JSON
response and `delay` otherwise; if every attempt fails, the wrapper returns
the DefiniteFailure sentinel `None` after exactly `N` attempts.  The model
is a total function: no exception of the wrapped call propagates. -/
theorem safe_stock_api_call_spec {α : Type}
    (f : ℕ → potential_stock_finder.CallOutcome α) (retries delay k : ℕ) (v : α) :
    (k < retries → (∀ i, i < k → (f i).isFail = true) → f k = .success v →
      (potential_stock_finder.safe_stock_api_call f retries delay).result = some v ∧
      (potential_stock_finder.safe_stock_api_call f retries delay).sleeps.length = k ∧
      (potential_stock_finder.safe_stock_api_call f retries delay).sleeps =
        (List.range k).map (fun i => (f i).sleepFor delay) ∧
      (potential_stock_finder.safe_stock_api_call f retries delay).attempts = k + 1) ∧
    ((∀ i, i < retries → (f i).isFail = true) →
      (potential_stock_finder.safe_stock_api_call f retries delay).result = none ∧
      (potential_stock_finder.safe_stock_api_call f retries delay).attempts = retries) := by
  constructor
  · intro hk hfail hs
    have h := safe_api_go_success f delay k retries 0 v hk
      (by intro i hi; simpa using hfail i hi) (by simpa using hs)
    unfold potential_stock_finder.safe_stock_api_call
    rw [h]
    refine ⟨rfl, by simp, by simp, rfl⟩
  · intro hfail
    have h := safe_api_go_allfail f delay retries 0
      (by intro i hi; simpa using hfail i hi)
    unfold potential_stock_finder.safe_stock_api_call
    exact h

/-- Witness for C3: a stub failing once with a malformed-JSON response and
succeeding on the second attempt (one doubled sleep, two attempts), and an
always-failing stub (DefiniteFailure after all five attempts). -/
theorem safe_stock_api_call_spec_witness :
    (1 : ℕ) < 5 ∧ stubCall 1 = .success 7 ∧
    (potential_stock_finder.safe_stock_api_call stubCall 5 3).result = some 7 ∧
    (potential_stock_finder.safe_stock_api_call stubCall 5 3).sleeps =
      (List.range 1).map (fun i => (stubCall i).sleepFor 3) ∧
    (potential_stock_finder.safe_stock_api_call stubCall 5 3).attempts = 2 ∧
    (∀ i, i < 5 → (stubCallFail i).isFail = true) ∧
    (potential_stock_finder.safe_stock_api_call stubCallFail 5 3).result = none ∧
    (potential_stock_finder.safe_stock_api_call stubCallFail 5 3).attempts = 5 :=
  ⟨by decide, by decide,
   ((safe_stock_api_call_spec stubCall 5 3 1 7).1 (by decide)
     (by decide) (by decide)).1,
   ((safe_stock_api_call_spec stubCall 5 3 1 7).1 (by decide)
     (by decide) (by decide)).2.2.1,
   ((safe_stock_api_call_spec stubCall 5 3 1 7).1 (by decide)
     (by decide) (by decide)).2.2.2,
   by decide,
   ((safe_stock_api_call_spec stubCallFail 5 3 0 0).2 (by decide)).1,
   ((safe_stock_api_call_spec stubCallFail 5 3 0 0).2 (by decide)).2⟩

/-! ## Claim C2 -/

/-- Claim C2: the breakout screener is a hard conjunction.  For every
`(code, market_cap)` input with sufficient data (at least 120 bars, so every
rolling window is defined), `process_stock` returns the instrument code iff
all six active criteria hold (recent 5-bar volume surge, MA20 above MA60,
MA60 above MA120, close above MA20, market-cap ceiling, at least 3 up-days
in the last 5 bars), and returns `None` whenever any single criterion
fails — no partial credit. -/
theorem breakout_and_gate (code : ℕ) (cap : ℚ) (df : List Bar)
    (h : 120 ≤ df.length) :
    (potential_stock_finder.process_stock code cap df = some code ↔
      (potential_stock_finder.recent_volume_surge df = true ∧
       potential_stock_finder.crit_ma20_above_ma60 df = true ∧
       potential_stock_finder.crit_ma60_above_ma120 df = true ∧
       potential_stock_finder.crit_close_above_ma20 df = true ∧
       potential_stock_finder.crit_cap_below_ceiling cap = true ∧
       potential_stock_finder.crit_recent_up_days df = true)) ∧
    ((potential_stock_finder.recent_volume_surge df = false ∨
      potential_stock_finder.crit_ma20_above_ma60 df = false ∨
      potential_stock_finder.crit_ma60_above_ma120 df = false ∨
      potential_stock_finder.crit_close_above_ma20 df = false ∨
      potential_stock_finder.crit_cap_below_ceiling cap = false ∨
      potential_stock_finder.crit_recent_up_days df = false) →
      potential_stock_finder.process_stock code cap df = none) := by
  have h0 : ¬ df.length = 0 := by omega
  have h100 : ¬ df.length < 100 := by omega
  unfold potential_stock_finder.process_stock
  rw [if_neg h0, if_neg h100]
  cases h1 : potential_stock_finder.recent_volume_surge df <;>
    cases h2 : potential_stock_finder.crit_ma20_above_ma60 df <;>
    cases h3 : potential_stock_finder.crit_ma60_above_ma120 df <;>
    cases h4 : potential_stock_finder.crit_close_above_ma20 df <;>
    cases h5 : potential_stock_finder.crit_cap_below_ceiling cap <;>
    cases h6 : potential_stock_finder.crit_recent_up_days df <;>
    simp

/-- Witness for C2 at a concrete 120-bar series. -/
theorem breakout_and_gate_witness :
    120 ≤ bDf.length ∧
    (potential_stock_finder.process_stock 1 0 bDf = some 1 ↔
      (potential_stock_finder.recent_volume_surge bDf = true ∧
       potential_stock_finder.crit_ma20_above_ma60 bDf = true ∧
       potential_stock_finder.crit_ma60_above_ma120 bDf = true ∧
       potential_stock_finder.crit_close_above_ma20 bDf = true ∧
       potential_stock_finder.crit_cap_below_ceiling 0 = true ∧
       potential_stock_finder.crit_recent_up_days bDf = true)) :=
  ⟨by simp [bDf], (breakout_and_gate 1 0 bDf (by simp [bDf])).1⟩

/-! ## Claim C9 -/

/-- Claim C9: on a series of at least 60 bars whose MA20 first exceeds MA60
exactly at bar `k` (at or after bar 59, where MA60 first becomes defined)
and stays above thereafter, the MA-transition check evaluated on each
prefix is false for every prefix ending before bar `k`, true at the prefix
ending at bar `k`, and true for every later prefix (the already-above
clause). -/
theorem ma_transition_crossover_behavior (df : List Bar) (k : ℕ)
    (hk1 : 59 ≤ k) (hk2 : k < df.length)
    (hbefore : ∀ i, i < k → 59 ≤ i →
      Fp.blt (rollMeanLast 60 ((df.map Bar.close).take (i + 1)))
        (rollMeanLast 20 ((df.map Bar.close).take (i + 1))) = false)
    (hafter : ∀ i, i < df.length → k ≤ i →
      Fp.blt (rollMeanLast 60 ((df.map Bar.close).take (i + 1)))
        (rollMeanLast 20 ((df.map Bar.close).take (i + 1))) = true) :
    (∀ i, i < k → potential_stock_finder.check_ma_transition (df.take (i + 1)) = false) ∧
    potential_stock_finder.check_ma_transition (df.take (k + 1)) = true ∧
    (∀ i, i < df.length → k ≤ i →
      potential_stock_finder.check_ma_transition (df.take (i + 1)) = true) := by
  have hmain : ∀ i, i < df.length → 59 ≤ i →
      potential_stock_finder.check_ma_transition (df.take (i + 1)) =
        (Fp.blt (rollMeanLast 20 (((df.map Bar.close).take (i + 1)).dropLast))
            (rollMeanLast 60 (((df.map Bar.close).take (i + 1)).dropLast)) &&
          Fp.blt (rollMeanLast 60 ((df.map Bar.close).take (i + 1)))
            (rollMeanLast 20 ((df.map Bar.close).take (i + 1))) ||
          Fp.blt (rollMeanLast 60 ((df.map Bar.close).take (i + 1)))
            (rollMeanLast 20 ((df.map Bar.close).take (i + 1)))) := by
    intro i hi h59
    have hlen : (df.take (i + 1)).length = i + 1 := by
      rw [List.length_take]
      omega
    simp only [potential_stock_finder.check_ma_transition]
    rw [if_neg (by omega : ¬ (df.take (i + 1)).length < 60), List.map_take]
  refine ⟨?_, ?_, ?_⟩
  · intro i hik
    by_cases h59 : 59 ≤ i
    · have hi : i < df.length := by omega
      rw [hmain i hi h59, hbefore i hik h59]
      simp
    · simp only [potential_stock_finder.check_ma_transition]
      rw [if_pos (by rw [List.length_take]; omega)]
  · rw [hmain k hk2 hk1, hafter k hk2 (le_refl k)]
    simp
  · intro i hi hki
    rw [hmain i hi (by omega), hafter i hi hki]
    simp

/-- Evaluation helper: MA20 of the last 60-bar prefix of `maDf`. -/
theorem maDf_m20 : rollMeanLast 20 ((maDf.map Bar.close).take 60) = Fp.fin 1 := by
  have hclose : maDf.map Bar.close = List.replicate 40 (0:ℚ) ++ List.replicate 20 1 := by
    simp [maDf]
  have htake : (maDf.map Bar.close).take 60 = maDf.map Bar.close := by
    apply List.take_of_length_le
    simp [maDf]
  rw [htake, hclose]
  unfold rollMeanLast
  rw [if_neg (by simp)]
  unfold lastN
  norm_num [listMean, List.replicate, List.sum_cons, List.sum_nil]

/-- Evaluation helper: MA60 of the last 60-bar prefix of `maDf`. -/
theorem maDf_m60 : rollMeanLast 60 ((maDf.map Bar.close).take 60) = Fp.fin (1/3) := by
  have hclose : maDf.map Bar.close = List.replicate 40 (0:ℚ) ++ List.replicate 20 1 := by
    simp [maDf]
  have htake : (maDf.map Bar.close).take 60 = maDf.map Bar.close := by
    apply List.take_of_length_le
    simp [maDf]
  rw [htake, hclose]
  unfold rollMeanLast
  rw [if_neg (by simp)]
  unfold lastN
  norm_num [listMean, List.replicate, List.sum_cons, List.sum_nil]

/-- Evaluation helper: on `maDf` the MA20 is above the MA60 at every bar at
or after bar 59 (there is only bar 59). -/
theorem maDf_after : ∀ i, i < maDf.length → 59 ≤ i →
    Fp.blt (rollMeanLast 60 ((maDf.map Bar.close).take (i + 1)))
      (rollMeanLast 20 ((maDf.map Bar.close).take (i + 1))) = true := by
  intro i hi h59
  have hlen : maDf.length = 60 := by simp [maDf]
  have hi59 : i = 59 := by omega
  subst hi59
  rw [show (59 : ℕ) + 1 = 60 from rfl, maDf_m20, maDf_m60]
  simp [Fp.blt]
  norm_num

/-- Witness for C9 at the concrete series `maDf` with crossover bar `k = 59`. -/
theorem ma_transition_crossover_behavior_witness :
    (59 : ℕ) ≤ 59 ∧ 59 < maDf.length ∧
    potential_stock_finder.check_ma_transition (maDf.take (59 + 1)) = true :=
  ⟨le_refl 59, by simp [maDf],
   (ma_transition_crossover_behavior maDf 59 (le_refl 59) (by simp [maDf])
     (by decide) maDf_after).2.1⟩

/-! ## Claim C1 -/

/-- Claim C1: for every weekly series of at least 52 bars and every market
cap, the composite score of the wave screener is the weighted sum of the
criterion outcomes with weights Fibonacci zone+rebound 3, RSI
oversold-and-rising 3, Bollinger lower-band 2, MACD golden cross 2, MACD
histogram rising 1, OBV rising 1, volume-decrease pattern 1, MA240 band 1,
market-cap floor 1 (total 14); `process_stock` returns the instrument (with
that score) iff the score is at least 7 — a score of exactly 6 yields
`None` and a score of exactly 7 yields a result with `score = 7`. -/
theorem wave_score_and_threshold (code : ℕ) (df : List Bar) (marcap : ℚ)
    (h : 52 ≤ df.length) :
    ((wave_analysis.process_stock code df marcap).isSome ↔
      7 ≤ wave_analysis.score (wave_analysis.wave_flags df marcap)) ∧
    (wave_analysis.score (wave_analysis.wave_flags df marcap) =
      (if wave_analysis.pass_fib (wave_analysis.wave_flags df marcap) then 3 else 0) +
      (if (wave_analysis.wave_flags df marcap).oversold &&
          (wave_analysis.wave_flags df marcap).rsi_rising then 3 else 0) +
      (if (wave_analysis.wave_flags df marcap).in_bollinger_low then 2 else 0) +
      (if (wave_analysis.wave_flags df marcap).macd_golden_cross then 2 else 0) +
      (if (wave_analysis.wave_flags df marcap).macd_hist_rising then 1 else 0) +
      (if (wave_analysis.wave_flags df marcap).obv_rising then 1 else 0) +
      (if (wave_analysis.wave_flags df marcap).vol_decrease_pattern then 1 else 0) +
      (if (wave_analysis.wave_flags df marcap).pass_ma240 then 1 else 0) +
      (if (wave_analysis.wave_flags df marcap).pass_marcap then 1 else 0)) ∧
    (∀ r, wave_analysis.process_stock code df marcap = some r →
      r.score = wave_analysis.score (wave_analysis.wave_flags df marcap)) ∧
    (wave_analysis.score (wave_analysis.wave_flags df marcap) = 6 →
      wave_analysis.process_stock code df marcap = none) ∧
    (wave_analysis.score (wave_analysis.wave_flags df marcap) = 7 →
      ∃ r, wave_analysis.process_stock code df marcap = some r ∧ r.score = 7) := by
  have hp : wave_analysis.process_stock code df marcap =
      wave_analysis.waveSelect code (wave_analysis.wave_flags df marcap) := by
    unfold wave_analysis.process_stock
    rw [if_neg (by omega)]
  refine ⟨?_, ?_, ?_, ?_, ?_⟩
  · rw [hp]
    unfold wave_analysis.waveSelect
    by_cases hs : 7 ≤ wave_analysis.score (wave_analysis.wave_flags df marcap)
    · rw [if_pos hs]
      simpa using hs
    · rw [if_neg hs]
      simpa using hs
  · unfold wave_analysis.score
    ring
  · intro r hr
    rw [hp] at hr
    unfold wave_analysis.waveSelect at hr
    by_cases hs : 7 ≤ wave_analysis.score (wave_analysis.wave_flags df marcap)
    · rw [if_pos hs] at hr
      simp only [Option.some.injEq] at hr
      subst hr
      rfl
    · rw [if_neg hs] at hr
      exact absurd hr (by simp)
  · intro h6
    rw [hp]
    unfold wave_analysis.waveSelect
    rw [if_neg (by omega)]
  · intro h7
    rw [hp]
    unfold wave_analysis.waveSelect
    rw [if_pos (by omega)]
    exact ⟨_, rfl, h7⟩

/-- Witness for C1 at a concrete 52-bar series. -/
theorem wave_score_and_threshold_witness :
    52 ≤ wDf.length ∧
    ((wave_analysis.process_stock 1 wDf 0).isSome ↔
      7 ≤ wave_analysis.score (wave_analysis.wave_flags wDf 0)) :=
  ⟨by simp [wDf], (wave_score_and_threshold 1 wDf 0 (by simp [wDf])).1⟩

/-! ## Claim C10 -/

/-- Counterexample for C10 as stated: two criterion-flag records identical
in every field that is stored in the result dictionary (the market-cap flag
differs, and it is not stored) produce results with identical stored
component flags but different scores (8 versus 9) — so the stored overall
score, and hence the pass decision, is not recomputable from the stored
component flags alone. -/
theorem wave_result_flags_do_not_determine_score :
    (wave_analysis.waveSelect 1 flagsBase).map
        (fun r => (r.code, r.rsi, r.fib_zone, r.fib_data, r.bollinger_low,
          r.macd_cross, r.obv_rising, r.rebound, r.vol_trend)) =
      (wave_analysis.waveSelect 1 flagsCap).map
        (fun r => (r.code, r.rsi, r.fib_zone, r.fib_data, r.bollinger_low,
          r.macd_cross, r.obv_rising, r.rebound, r.vol_trend)) ∧
    (wave_analysis.waveSelect 1 flagsBase).map wave_analysis.WaveResult.score =
      some 8 ∧
    (wave_analysis.waveSelect 1 flagsCap).map wave_analysis.WaveResult.score =
      some 9 := by
  refine ⟨rfl, rfl, rfl⟩

/-- Claim C10 (amended): every result returned by the wave screener
selection stage is internally consistent in the parts that are stored — the
stored score equals the full weighted criterion sum, the result is returned
exactly when that score is at least 7, and every stored component flag
equals the corresponding criterion outcome.  However the score is not a
function of the stored flags alone: the RSI oversold/rising, MACD-histogram,
MA240 and market-cap outcomes (6 of the 14 points) are not recorded in the
result (see the counterexample). -/
theorem wave_result_consistency (code : ℕ) (fl : wave_analysis.WaveFlags)
    (r : wave_analysis.WaveResult)
    (h : wave_analysis.waveSelect code fl = some r) :
    r.score = wave_analysis.score fl ∧ 7 ≤ r.score ∧
    r.code = code ∧ r.rsi = fl.rsi ∧
    r.bollinger_low = fl.in_bollinger_low ∧
    r.macd_cross = fl.macd_golden_cross ∧
    r.obv_rising = fl.obv_rising ∧
    r.vol_trend = fl.vol_decrease_pattern ∧
    r.fib_data = fl.wave_data := by
  unfold wave_analysis.waveSelect at h
  by_cases hs : 7 ≤ wave_analysis.score fl
  · rw [if_pos hs] at h
    simp only [Option.some.injEq] at h
    subst h
    exact ⟨rfl, hs, rfl, rfl, rfl, rfl, rfl, rfl, rfl⟩
  · rw [if_neg hs] at h
    exact absurd h (by simp)

/-- Witness for C10 at the concrete flags `flagsBase`. -/
theorem wave_result_consistency_witness :
    wave_analysis.waveSelect 1 flagsBase = some resBase ∧
    resBase.score = wave_analysis.score flagsBase ∧ 7 ≤ resBase.score :=
  ⟨rfl, (wave_result_consistency 1 flagsBase resBase rfl).1,
   (wave_result_consistency 1 flagsBase resBase rfl).2.1⟩

/-! ## Claim C5 -/

/-- Every entry of the gain series is nonnegative. -/
theorem gains_mem_nonneg (closes : List ℚ) :
    ∀ x ∈ wave_analysis.gains closes, 0 ≤ x := by
  intro x hx
  unfold wave_analysis.gains at hx
  rw [List.mem_cons] at hx
  rcases hx with rfl | hx
  · exact le_refl 0
  · obtain ⟨d, hd, rfl⟩ := List.mem_map.1 hx
    by_cases h : 0 < d
    · rw [if_pos h]
      exact le_of_lt h
    · rw [if_neg h]

/-- Every entry of the loss series is nonnegative. -/
theorem losses_mem_nonneg (closes : List ℚ) :
    ∀ x ∈ wave_analysis.losses closes, 0 ≤ x := by
  intro x hx
  unfold wave_analysis.losses at hx
  rw [List.mem_cons] at hx
  rcases hx with rfl | hx
  · exact le_refl 0
  · obtain ⟨d, hd, rfl⟩ := List.mem_map.1 hx
    by_cases h : d < 0
    · rw [if_pos h]
      linarith
    · rw [if_neg h]

/-- The mean of a list of nonnegative rationals is nonnegative. -/
theorem listMean_nonneg {xs : List ℚ} (h : ∀ x ∈ xs, 0 ≤ x) : 0 ≤ listMean xs := by
  unfold listMean
  apply div_nonneg
  · exact List.sum_nonneg h
  · exact_mod_cast Nat.zero_le xs.length

/-- The gain series has the same length as the close series. -/
theorem gains_length (closes : List ℚ) (h : 1 ≤ closes.length) :
    (wave_analysis.gains closes).length = closes.length := by
  unfold wave_analysis.gains
  simp [List.length_zipWith, List.length_tail]
  omega

/-- The loss series has the same length as the close series. -/
theorem losses_length (closes : List ℚ) (h : 1 ≤ closes.length) :
    (wave_analysis.losses closes).length = closes.length := by
  unfold wave_analysis.losses
  simp [List.length_zipWith, List.length_tail]
  omega

/-- For a nonnegative relative strength `q`, `100 - 100/(1+q)` lies in
`[0, 100]`. -/
theorem rsi_formula_bounds (q : ℚ) (hq : 0 ≤ q) :
    0 ≤ 100 - 100 / (1 + q) ∧ 100 - 100 / (1 + q) ≤ 100 := by
  have h1 : (0:ℚ) < 1 + q := by linarith
  constructor
  · have h2 : 100 / (1 + q) ≤ 100 := by
      rw [div_le_iff₀ h1]
      nlinarith
    linarith
  · have h3 : 0 ≤ 100 / (1 + q) := by positivity
    linarith

/-- Float-arithmetic evaluation of `100 - 100/(1 + g/l)` in the three
regimes of the denominator. -/
theorem rsiFromGL_fin_cases (g l : ℚ) :
    (0 ≤ g → 0 < l → wave_analysis.rsiFromGL (Fp.fin g) (Fp.fin l) =
      Fp.fin (100 - 100 / (1 + g / l))) ∧
    (l = 0 → 0 < g → wave_analysis.rsiFromGL (Fp.fin g) (Fp.fin l) = Fp.fin 100) ∧
    (l = 0 → g = 0 → wave_analysis.rsiFromGL (Fp.fin g) (Fp.fin l) = Fp.nan) := by
  refine ⟨?_, ?_, ?_⟩
  · intro hg hl
    have hden : 1 + g / l ≠ 0 := by
      have : 0 ≤ g / l := div_nonneg hg (le_of_lt hl)
      intro hc
      linarith
    unfold wave_analysis.rsiFromGL
    rw [show Fp.div (Fp.fin g) (Fp.fin l) = Fp.fin (g / l) from by
      simp [Fp.div, ne_of_gt hl]]
    rw [show Fp.add (Fp.fin 1) (Fp.fin (g / l)) = Fp.fin (1 + g / l) from rfl]
    rw [show Fp.div (Fp.fin 100) (Fp.fin (1 + g / l)) = Fp.fin (100 / (1 + g / l))
        from by simp [Fp.div, hden]]
    rfl
  · intro hl hg
    subst hl
    unfold wave_analysis.rsiFromGL
    rw [show Fp.div (Fp.fin g) (Fp.fin 0) = Fp.pinf from by simp [Fp.div, hg]]
    rw [show Fp.add (Fp.fin 1) Fp.pinf = Fp.pinf from rfl]
    rw [show Fp.div (Fp.fin 100) Fp.pinf = Fp.fin 0 from rfl]
    rw [show Fp.sub (Fp.fin 100) (Fp.fin 0) = Fp.fin (100 - 0) from rfl]
    norm_num
  · intro hl hg
    subst hl
    subst hg
    unfold wave_analysis.rsiFromGL
    rw [show Fp.div (Fp.fin 0) (Fp.fin 0) = Fp.nan from by simp [Fp.div]]
    rfl

/-- Claim C5: on every series of at least 15 bars the RSI computation is a
total function (no division fault can propagate): its value is either a
finite rational in `[0, 100]`, or — only in the degenerate all-flat case —
the float `nan` with the oversold and rising flags false.  When the 14-bar
average loss is exactly zero the computation resolves to exactly `RSI = 100`
(average gain positive) or to `nan` with both flags false (average gain
zero). -/
theorem calculate_rsi_bounded (df : List Bar) (h : 15 ≤ df.length) :
    ((∃ q : ℚ, (wave_analysis.calculate_rsi df).1 = some (Fp.fin q) ∧
        0 ≤ q ∧ q ≤ 100) ∨
      ((wave_analysis.calculate_rsi df).1 = some Fp.nan ∧
        (wave_analysis.calculate_rsi df).2.1 = false ∧
        (wave_analysis.calculate_rsi df).2.2 = false)) ∧
    (listMean (lastN 14 (wave_analysis.losses (df.map Bar.close))) = 0 →
      0 < listMean (lastN 14 (wave_analysis.gains (df.map Bar.close))) →
      (wave_analysis.calculate_rsi df).1 = some (Fp.fin 100)) ∧
    (listMean (lastN 14 (wave_analysis.losses (df.map Bar.close))) = 0 →
      listMean (lastN 14 (wave_analysis.gains (df.map Bar.close))) = 0 →
      (wave_analysis.calculate_rsi df).1 = some Fp.nan ∧
        (wave_analysis.calculate_rsi df).2.1 = false ∧
        (wave_analysis.calculate_rsi df).2.2 = false) := by
  have hclen : (df.map Bar.close).length = df.length := List.length_map df Bar.close
  have hlen3 : ¬ (df.map Bar.close).length < 3 := by omega
  have hcalc : wave_analysis.calculate_rsi df =
      (some (wave_analysis.rsiAtEnd (df.map Bar.close)),
       Fp.blt (wave_analysis.rsiAtEnd (df.map Bar.close)) (Fp.fin 30),
       Fp.blt (wave_analysis.rsiAtEnd (df.map Bar.close).dropLast)
           (wave_analysis.rsiAtEnd (df.map Bar.close)) &&
         Fp.blt (wave_analysis.rsiAtEnd (df.map Bar.close).dropLast.dropLast)
           (wave_analysis.rsiAtEnd (df.map Bar.close).dropLast)) := by
    simp only [wave_analysis.calculate_rsi]
    rw [if_neg hlen3]
  have hgl : rollMeanLast 14 (wave_analysis.gains (df.map Bar.close)) =
      Fp.fin (listMean (lastN 14 (wave_analysis.gains (df.map Bar.close)))) := by
    unfold rollMeanLast
    rw [if_neg (by rw [gains_length (df.map Bar.close) (by omega)]; omega)]
  have hll : rollMeanLast 14 (wave_analysis.losses (df.map Bar.close)) =
      Fp.fin (listMean (lastN 14 (wave_analysis.losses (df.map Bar.close)))) := by
    unfold rollMeanLast
    rw [if_neg (by rw [losses_length (df.map Bar.close) (by omega)]; omega)]
  have hr1 : wave_analysis.rsiAtEnd (df.map Bar.close) =
      wave_analysis.rsiFromGL
        (Fp.fin (listMean (lastN 14 (wave_analysis.gains (df.map Bar.close)))))
        (Fp.fin (listMean (lastN 14 (wave_analysis.losses (df.map Bar.close))))) := by
    unfold wave_analysis.rsiAtEnd
    rw [hgl, hll]
  have hg0 : 0 ≤ listMean (lastN 14 (wave_analysis.gains (df.map Bar.close))) :=
    listMean_nonneg (fun x hx =>
      gains_mem_nonneg (df.map Bar.close) x (List.drop_subset _ _ hx))
  have hl0 : 0 ≤ listMean (lastN 14 (wave_analysis.losses (df.map Bar.close))) :=
    listMean_nonneg (fun x hx =>
      losses_mem_nonneg (df.map Bar.close) x (List.drop_subset _ _ hx))
  have hnan_case : wave_analysis.rsiAtEnd (df.map Bar.close) = Fp.nan →
      (wave_analysis.calculate_rsi df).1 = some Fp.nan ∧
      (wave_analysis.calculate_rsi df).2.1 = false ∧
      (wave_analysis.calculate_rsi df).2.2 = false := by
    intro hn
    refine ⟨?_, ?_, ?_⟩
    · rw [hcalc]
      simp only
      rw [hn]
    · rw [hcalc]
      simp only
      rw [hn]
      rfl
    · rw [hcalc]
      simp only
      rw [hn, Fp.blt_nan_right, Bool.false_and]
  have h100_case :
      listMean (lastN 14 (wave_analysis.losses (df.map Bar.close))) = 0 →
      0 < listMean (lastN 14 (wave_analysis.gains (df.map Bar.close))) →
      (wave_analysis.calculate_rsi df).1 = some (Fp.fin 100) := by
    intro hl hg
    rw [hcalc]
    simp only
    rw [hr1, hl, (rsiFromGL_fin_cases
      (listMean (lastN 14 (wave_analysis.gains (df.map Bar.close)))) 0).2.1 rfl hg]
  refine ⟨?_, h100_case, ?_⟩
  · rcases lt_or_eq_of_le hl0 with hl | hl
    · left
      refine ⟨100 - 100 / (1 +
        listMean (lastN 14 (wave_analysis.gains (df.map Bar.close))) /
          listMean (lastN 14 (wave_analysis.losses (df.map Bar.close)))), ?_, ?_, ?_⟩
      · rw [hcalc]
        simp only
        rw [hr1, (rsiFromGL_fin_cases _ _).1 hg0 hl]
      · exact (rsi_formula_bounds _ (div_nonneg hg0 (le_of_lt hl))).1
      · exact (rsi_formula_bounds _ (div_nonneg hg0 (le_of_lt hl))).2
    · rcases lt_or_eq_of_le hg0 with hg | hg
      · left
        refine ⟨100, ?_, by norm_num, by norm_num⟩
        exact h100_case hl.symm hg
      · right
        apply hnan_case
        rw [hr1, ← hl, ← hg]
        exact (rsiFromGL_fin_cases _ _).2.2 rfl rfl
  · intro hl hg
    apply hnan_case
    rw [hr1, hl, hg]
    exact (rsiFromGL_fin_cases 0 0).2.2 rfl rfl

/-- Witness for C5 at a concrete 15-bar constant-close series (the
degenerate case: average gain and loss both zero, RSI is `nan`, flags
false). -/
theorem calculate_rsi_bounded_witness :
    15 ≤ rsiDf.length ∧
    ((wave_analysis.calculate_rsi rsiDf).1 = some Fp.nan ∧
      (wave_analysis.calculate_rsi rsiDf).2.1 = false ∧
      (wave_analysis.calculate_rsi rsiDf).2.2 = false) :=
  ⟨by simp [rsiDf],
   (calculate_rsi_bounded rsiDf (by simp [rsiDf])).2.2
     (by norm_num [rsiDf, wave_analysis.losses, lastN, listMean, List.replicate,
       List.sum_cons, List.sum_nil])
     (by norm_num [rsiDf, wave_analysis.gains, lastN, listMean, List.replicate,
       List.sum_cons, List.sum_nil])⟩
